import Mathlib

/-!
Shallow embedding of the poll-loop core of node-toogoodtogo-watcher,
translated from src/lib/poller.js.  JS numbers holding millisecond
instants and durations are modelled as Int; configuration values that
may be fractional are modelled as Rat; a JS nullish field is an Option
that is none.  The randomness source (Math.random) is modelled as a
rational rnd with 0 <= rnd < 1.
-/

/-- Optional HTTP status fields of the nested response object of a client
error, as read by isHttp403 in src/lib/poller.js. A none field models a
JS null or undefined field. -/
structure ErrResponse where
  statusCode : Option Int
  status : Option Int
deriving Repr, DecidableEq

/-- An error value as inspected by isHttp403 (src/lib/poller.js lines
165-173): it may carry a nested response object and top-level status
fields. -/
structure JsError where
  response : Option ErrResponse
  statusCode : Option Int
  status : Option Int
deriving Repr, DecidableEq

/-- isHttp403 (src/lib/poller.js lines 165-173): the JS nullish-coalescing
chain takes the first non-nullish value among error.response.statusCode,
error.response.status, error.statusCode, error.status, and the function
returns whether that value is strictly equal to 403. -/
def isHttp403 (e : JsError) : Bool :=
  let code :=
    (e.response.bind fun r => r.statusCode) <|>
    (e.response.bind fun r => r.status) <|>
    e.statusCode <|>
    e.status
  code == some 403

/-- A successful response as consumed by the poll pipeline; the core only
inspects its items field (src/lib/poller.js lines 136-137).  A present
array value, possibly the empty array, is some; an absent or nullish
items field is none (a JS array is always truthy, so the code test
double-negation of lodash get distinguishes exactly these two cases for
array-or-absent values).  Listing payloads are modelled as naturals. -/
structure JsResponse where
  items : Option (List Nat)
deriving Repr, DecidableEq

/-- Outcome of one fetch after the retry(2)/catchError wrapping of
runOnce (src/lib/poller.js lines 74-78): either a success carrying the
response or an error carrying the caught error value. -/
inductive PollEvent where
  | success (response : JsResponse)
  | error (err : JsError)
deriving Repr, DecidableEq

/-- The mutable closure state of pollLoopWith403Backoff (src/lib/poller.js
lines 66-69). -/
structure Backoff403State where
  error403Timestamps : List Int
  cooldownUntil : Int
deriving Repr, DecidableEq

/-- The three backoff configuration values read at lines 61-63 of
src/lib/poller.js. -/
structure BackoffConfig where
  threshold : Int
  windowMs : Int
  cooldownMs : Int
deriving Repr, DecidableEq

/-- The state update performed by the expand callback of
pollLoopWith403Backoff (src/lib/poller.js lines 86-110): on an error
classified as HTTP 403, push now, keep only timestamps t with
now - t <= windowMs, and if at least threshold remain, raise
cooldownUntil to max of its old value and now + cooldownMs and clear the
list; on any other error and on success the state is untouched. -/
def observe403Update (cfg : BackoffConfig) (st : Backoff403State)
    (ev : PollEvent) (now : Int) : Backoff403State :=
  match ev with
  | .error e =>
    if isHttp403 e then
      let ts := (st.error403Timestamps ++ [now]).filter fun t => now - t ≤ cfg.windowMs
      if cfg.threshold ≤ (ts.length : Int) then
        { error403Timestamps := [],
          cooldownUntil := max st.cooldownUntil (now + cfg.cooldownMs) }
      else
        { error403Timestamps := ts, cooldownUntil := st.cooldownUntil }
    else st
  | .success _ => st

/-- Reference transition written from the words of spec section 4.2: on a
failure classified as HTTP 403, append now to the failure timestamp
sequence, prune every entry older than windowMs keeping exactly those t
with now - t <= windowMs, and if the pruned count reaches threshold, set
cooldownUntil to max of the previous cooldownUntil and now + cooldownMs
and clear the failure sequence; on a failure not classified as 403 and
on every success, leave both the sequence and cooldownUntil unchanged. -/
def specObserve403 (cfg : BackoffConfig) (st : Backoff403State)
    (ev : PollEvent) (now : Int) : Backoff403State :=
  match ev with
  | .error e =>
    if isHttp403 e then
      let appended := st.error403Timestamps ++ [now]
      let pruned := appended.filter fun t => now - t ≤ cfg.windowMs
      if (pruned.length : Int) ≥ cfg.threshold then
        { error403Timestamps := [],
          cooldownUntil := max st.cooldownUntil (now + cfg.cooldownMs) }
      else
        { error403Timestamps := pruned, cooldownUntil := st.cooldownUntil }
    else st
  | .success _ => st

/-- One full transition of the expand callback (src/lib/poller.js lines
82-131): update the backoff state, then compute the next delay as the
max of the freshly drawn random interval and the remaining cooldown
max 0 (cooldownUntil - now) read from the updated state.  Returns the
new state and the scheduled delay. -/
def pollCycleStep (cfg : BackoffConfig) (st : Backoff403State)
    (ev : PollEvent) (now randomDelay : Int) : Backoff403State × Int :=
  let st2 := observe403Update cfg st ev now
  let cooldownDelay := max 0 (st2.cooldownUntil - now)
  (st2, max randomDelay cooldownDelay)

/-- cooldownUntil never decreases across one observation. -/
theorem observe403_cooldown_mono (cfg : BackoffConfig) (st : Backoff403State)
    (ev : PollEvent) (now : Int) :
    st.cooldownUntil ≤ (observe403Update cfg st ev now).cooldownUntil := by
  cases ev with
  | success r => exact le_refl _
  | error e =>
    simp only [observe403Update]
    split_ifs <;> simp [le_max_left]

/-- C1: the Backoff403Tracker transition performed each poll cycle equals
the reference definition of spec section 4.2, for every configuration,
prior state, event and observation instant. -/
theorem claim1_backoff_transition_matches_spec
    (cfg : BackoffConfig) (st : Backoff403State) (ev : PollEvent) (now : Int) :
    observe403Update cfg st ev now = specObserve403 cfg st ev now := by
  cases ev <;> rfl

/-- C9: within a single poll-loop lifetime, cooldownUntil is monotonically
non-decreasing: after each observation its value is at least its value
before. -/
theorem claim9_cooldownUntil_monotone
    (cfg : BackoffConfig) (st : Backoff403State) (ev : PollEvent) (now : Int) :
    st.cooldownUntil ≤ (observe403Update cfg st ev now).cooldownUntil :=
  observe403_cooldown_mono cfg st ev now

/-- C2: the delay scheduled by a poll cycle equals the max of the freshly
drawn random interval and max 0 (cooldownUntil - now) taken on the
updated state; consequently, while a cooldown armed at T for cd is still
pending (the updated cooldownUntil is at least T + cd and now < T + cd),
the scheduled delay is at least the remaining cooldown T + cd - now and
at least the random interval. -/
theorem claim2_delay_formula_and_cooldown_lower_bound
    (cfg : BackoffConfig) (st : Backoff403State) (ev : PollEvent)
    (now randomDelay T cd : Int)
    (harm : T + cd ≤ (observe403Update cfg st ev now).cooldownUntil)
    (hnow : now < T + cd) :
    (pollCycleStep cfg st ev now randomDelay).2
      = max randomDelay (max 0 ((observe403Update cfg st ev now).cooldownUntil - now))
    ∧ (T + cd) - now ≤ (pollCycleStep cfg st ev now randomDelay).2
    ∧ randomDelay ≤ (pollCycleStep cfg st ev now randomDelay).2 := by
  refine ⟨rfl, ?_, ?_⟩
  · unfold pollCycleStep
    simp only
    omega
  · unfold pollCycleStep
    simp only
    omega

/-- C2 witness: a concrete cycle inside a pending cooldown.  The cooldown
was armed at T = 400000 for cd = 600000, the state carries
cooldownUntil = 1000000, the cycle happens at now = 500000 with random
interval 30000; the scheduled delay is 500000, at least the remaining
cooldown and at least the random interval. -/
theorem claim2_witness :
    (pollCycleStep ⟨3, 300000, 600000⟩ ⟨[], 1000000⟩
        (PollEvent.success ⟨none⟩) 500000 30000).2
      = max 30000 (max 0 ((observe403Update ⟨3, 300000, 600000⟩ ⟨[], 1000000⟩
          (PollEvent.success ⟨none⟩) 500000).cooldownUntil - 500000))
    ∧ (400000 + 600000) - 500000
        ≤ (pollCycleStep ⟨3, 300000, 600000⟩ ⟨[], 1000000⟩
            (PollEvent.success ⟨none⟩) 500000 30000).2
    ∧ (30000 : Int)
        ≤ (pollCycleStep ⟨3, 300000, 600000⟩ ⟨[], 1000000⟩
            (PollEvent.success ⟨none⟩) 500000 30000).2 :=
  claim2_delay_formula_and_cooldown_lower_bound
    ⟨3, 300000, 600000⟩ ⟨[], 1000000⟩ (PollEvent.success ⟨none⟩)
    500000 30000 400000 600000 (by decide) (by decide)

/-- Emission of one poll event through the output pipeline of
pollLoopWith403Backoff (src/lib/poller.js lines 134-137): keep success
events, take their response, keep responses whose items field is truthy
(for array-or-absent values: present, even as an empty array), and emit
the items value.  none means the event produces no emission. -/
def emitOf : PollEvent → Option (List Nat)
  | .success r =>
    match r.items with
    | some l => some l
    | none => none
  | .error _ => none

/-- The fresh closure state allocated by defer each time the poll loop is
subscribed (src/lib/poller.js lines 66-69). -/
def initialBackoff403State : Backoff403State :=
  { error403Timestamps := [], cooldownUntil := 0 }

/-- An event observed by the orchestrator: a change of the enable signal,
or one classified poll cycle of the currently active loop. -/
inductive OrchEvent where
  | setEnabled (b : Bool)
  | cycle (ev : PollEvent) (now randomDelay : Int)
deriving Repr, DecidableEq

/-- One step of pollFavoriteBusinesses (src/lib/poller.js lines 49-51)
under the semantics of switchMap and defer: every enabled value true
unsubscribes any current loop and subscribes a fresh
pollLoopWith403Backoff whose defer allocates a fresh state; every
enabled value false switches to EMPTY, leaving no active loop; a cycle
event is processed by the active loop when one exists (state update of
lines 86-110 plus emission of lines 134-137) and is impossible for a
cancelled loop, which performs no fetches, no state updates and no
emissions.  The orchestrator state is the active loop state when one
exists; the second component is the emission of the step. -/
def orchStep (cfg : BackoffConfig) (s : Option Backoff403State)
    (e : OrchEvent) : Option Backoff403State × Option (List Nat) :=
  match e with
  | .setEnabled true => (some initialBackoff403State, none)
  | .setEnabled false => (none, none)
  | .cycle ev now _ =>
    match s with
    | some st => (some (observe403Update cfg st ev now), emitOf ev)
    | none => (none, none)

/-- The four places isHttp403 searches, in source order, as a list. -/
def statusCandidates (e : JsError) : List (Option Int) :=
  [e.response.bind fun r => r.statusCode,
   e.response.bind fun r => r.status,
   e.statusCode,
   e.status]

/-- Predicate written from the words of claim C6: the error carries a
status code equal to 403 in at least one of the plausible locations. -/
def carries403Somewhere (e : JsError) : Bool :=
  (statusCandidates e).any fun c => c == some 403

/-- C5: for every previous orchestrator state, an off-to-on transition of
the enable signal installs a loop whose backoff state is fresh, with an
empty timestamp sequence and cooldownUntil zero, discarding whatever was
accumulated before; an on-to-off transition leaves no active loop; and
with no active loop a cycle performs no state update and no emission. -/
theorem claim5_enable_toggle_fresh_state_and_cancellation
    (cfg : BackoffConfig) (s : Option Backoff403State) :
    orchStep cfg s (OrchEvent.setEnabled true)
      = (some { error403Timestamps := [], cooldownUntil := 0 }, none)
    ∧ orchStep cfg s (OrchEvent.setEnabled false) = (none, none)
    ∧ ∀ ev now randomDelay,
        orchStep cfg none (OrchEvent.cycle ev now randomDelay) = (none, none) :=
  ⟨rfl, rfl, fun _ _ _ => rfl⟩

/-- C4 counterexample: a successful response whose items field is present
but empty produces an emission of the empty batch, because a JS array is
truthy even when empty; the claim as stated says an empty items field
yields zero emissions. -/
theorem claim4_counterexample :
    emitOf (PollEvent.success { items := some [] }) = some []
    ∧ emitOf (PollEvent.success { items := some [] }) ≠ none := by
  exact ⟨rfl, by decide⟩

/-- C4 amended: a poll cycle produces an emission if and only if it is a
success whose response carries a present items field, and the emitted
value is exactly that items value, which may be the empty sequence;
failures and successes lacking items produce no emission, and every
event still yields a next scheduled cycle through pollCycleStep. -/
theorem claim4_emission_iff_items_present :
    (∀ ev l, emitOf ev = some l
      ↔ ∃ r, ev = PollEvent.success r ∧ r.items = some l)
    ∧ (∀ e, emitOf (PollEvent.error e) = none)
    ∧ (∀ cfg st ev now randomDelay,
        (pollCycleStep cfg st ev now randomDelay).1 = observe403Update cfg st ev now) := by
  refine ⟨?_, fun _ => rfl, fun _ _ _ _ _ => rfl⟩
  intro ev l
  cases ev with
  | success r =>
    cases h : r.items with
    | some l2 => simp [emitOf, h]
    | none => simp [emitOf, h]
  | error e => simp [emitOf]

/-- C6 counterexample: an error whose nested response carries status code
500 while its top-level status field carries 403.  It carries 403 in one
of the four plausible locations, yet isHttp403 classifies it as not 403,
because the nullish-coalescing chain stops at the first present value. -/
theorem claim6_counterexample :
    carries403Somewhere
        { response := some { statusCode := some 500, status := none },
          statusCode := none, status := some 403 } = true
    ∧ isHttp403
        { response := some { statusCode := some 500, status := none },
          statusCode := none, status := some 403 } = false := by
  decide

/-- C6 amended: the classification succeeds if and only if the first
present status code, in the priority order response.statusCode,
response.status, statusCode, status, equals 403; a 403 in a later
location is masked by an earlier present non-403 value. -/
theorem claim6_first_present_status_is_403 (e : JsError) :
    isHttp403 e = true ↔ (statusCandidates e).findSome? id = some 403 := by
  obtain ⟨resp, sc, stt⟩ := e
  cases resp with
  | none =>
    cases sc <;> cases stt <;>
      simp [isHttp403, statusCandidates, List.findSome?, Option.orElse]
  | some r =>
    obtain ⟨rsc, rst⟩ := r
    cases rsc <;> cases rst <;> cases sc <;> cases stt <;>
      simp [isHttp403, statusCandidates, List.findSome?, Option.orElse]

/-- randomIntInclusive (src/lib/poller.js lines 211-215): with
minInt the ceiling of min, maxInt the floor of max, return
floor (rnd * (maxInt - minInt + 1)) + minInt, where rnd stands for the
value drawn from Math.random, a rational with 0 <= rnd < 1. -/
def randomIntInclusive (mn mx rnd : ℚ) : Int :=
  let minInt : Int := ⌈mn⌉
  let maxInt : Int := ⌊mx⌋
  ⌊rnd * ((maxInt : ℚ) - (minInt : ℚ) + 1)⌋ + minInt

/-- The pre-clamp resolution of the polling bounds
(src/lib/poller.js lines 225-236): when neither min nor max is
configured, a configured legacy fixed interval serves as both, else the
defaults 40000 and 120000 apply; otherwise each missing one of min and
max falls back to its default.  The arguments are the three values
returned by getConfiguredNumber, where none models null. -/
def resolvedPollingBounds (cfgMin cfgMax legacyFixed : Option ℚ) : ℚ × ℚ :=
  match cfgMin, cfgMax with
  | none, none =>
    match legacyFixed with
    | some l => (l, l)
    | none => (40000, 120000)
  | _, _ => (cfgMin.getD 40000, cfgMax.getD 120000)

/-- The clamps of src/lib/poller.js lines 238-239: raise min to the hard
floor 15000, then raise max to the clamped min. -/
def effectivePollingBounds (cfgMin cfgMax legacyFixed : Option ℚ) : ℚ × ℚ :=
  let r := resolvedPollingBounds cfgMin cfgMax legacyFixed
  let mn := max r.1 15000
  (mn, max r.2 mn)

/-- getRandomPollingIntervalInMs (src/lib/poller.js lines 217-242):
resolve and clamp the bounds, then draw the random integer. -/
def getRandomPollingIntervalInMs (cfgMin cfgMax legacyFixed : Option ℚ)
    (rnd : ℚ) : Int :=
  let b := effectivePollingBounds cfgMin cfgMax legacyFixed
  randomIntInclusive b.1 b.2 rnd

/-- For integer bounds mn <= mx and a random value in the unit interval,
the drawn integer lies in the closed interval from mn to mx. -/
theorem randomIntInclusive_mem (mn mx : Int) (rnd : ℚ)
    (hle : mn ≤ mx) (h0 : 0 ≤ rnd) (h1 : rnd < 1) :
    mn ≤ randomIntInclusive (mn : ℚ) (mx : ℚ) rnd
    ∧ randomIntInclusive (mn : ℚ) (mx : ℚ) rnd ≤ mx := by
  have hceil : ⌈(mn : ℚ)⌉ = mn := Int.ceil_intCast mn
  have hfloor : ⌊(mx : ℚ)⌋ = mx := Int.floor_intCast mx
  have hcpos : (0 : ℚ) < (mx : ℚ) - (mn : ℚ) + 1 := by
    have h : (mn : ℚ) ≤ (mx : ℚ) := by exact_mod_cast hle
    linarith
  have hlow : 0 ≤ ⌊rnd * ((mx : ℚ) - (mn : ℚ) + 1)⌋ :=
    Int.floor_nonneg.mpr (mul_nonneg h0 (le_of_lt hcpos))
  have hup : ⌊rnd * ((mx : ℚ) - (mn : ℚ) + 1)⌋ < mx - mn + 1 := by
    apply Int.floor_lt.mpr
    have hcast : ((mx - mn + 1 : Int) : ℚ) = (mx : ℚ) - (mn : ℚ) + 1 := by
      push_cast
      ring
    rw [hcast]
    exact mul_lt_of_lt_one_left hcpos h1
  simp only [randomIntInclusive, hceil, hfloor]
  constructor <;> omega

/-- C7: for all configured minimum and maximum with min <= max and
min >= 15000, the drawn interval is an integer between min and max for
every random value in the unit interval and every legacy setting; for
every configuration, the effective bounds before the random draw are the
resolved bounds clamped first as max with 15000 on min and then as max
with the clamped min on max; and the misconfiguration with min 5000 and
max 10000 yields the fixed value 15000. -/
theorem claim7_interval_range_and_clamping (rnd : ℚ) (h0 : 0 ≤ rnd) (h1 : rnd < 1) :
    (∀ mn mx : Int, mn ≤ mx → 15000 ≤ mn → ∀ legacyFixed,
      mn ≤ getRandomPollingIntervalInMs (some (mn : ℚ)) (some (mx : ℚ)) legacyFixed rnd
      ∧ getRandomPollingIntervalInMs (some (mn : ℚ)) (some (mx : ℚ)) legacyFixed rnd ≤ mx)
    ∧ (∀ cfgMin cfgMax legacyFixed,
        effectivePollingBounds cfgMin cfgMax legacyFixed
          = (max (resolvedPollingBounds cfgMin cfgMax legacyFixed).1 15000,
             max (resolvedPollingBounds cfgMin cfgMax legacyFixed).2
               (max (resolvedPollingBounds cfgMin cfgMax legacyFixed).1 15000)))
    ∧ getRandomPollingIntervalInMs (some 5000) (some 10000) none rnd = 15000 := by
  refine ⟨?_, fun _ _ _ => rfl, ?_⟩
  · intro mn mx hle hfloor legacyFixed
    have hbounds :
        effectivePollingBounds (some (mn : ℚ)) (some (mx : ℚ)) legacyFixed
          = ((mn : ℚ), (mx : ℚ)) := by
      unfold effectivePollingBounds resolvedPollingBounds
      simp only [Option.getD_some]
      have hmn : max (mn : ℚ) 15000 = (mn : ℚ) := by
        apply max_eq_left
        exact_mod_cast hfloor
      rw [hmn]
      have hmx : max (mx : ℚ) (mn : ℚ) = (mx : ℚ) := by
        apply max_eq_left
        exact_mod_cast hle
      rw [hmx]
    unfold getRandomPollingIntervalInMs
    rw [hbounds]
    exact randomIntInclusive_mem mn mx rnd hle h0 h1
  · have hbounds :
        effectivePollingBounds (some 5000) (some 10000) none
          = ((15000 : ℚ), (15000 : ℚ)) := by
      unfold effectivePollingBounds resolvedPollingBounds
      norm_num
    simp only [getRandomPollingIntervalInMs, hbounds, randomIntInclusive,
      Int.ceil_ofNat, Int.floor_ofNat]
    norm_num
    exact ⟨h0, h1⟩

/-- C7 witness: with the default configuration bounds 40000 and 120000
and the random value one half, the drawn interval lies between 40000 and
120000. -/
theorem claim7_witness :
    40000 ≤ getRandomPollingIntervalInMs
        (some ((40000 : Int) : ℚ)) (some ((120000 : Int) : ℚ)) none (1/2)
    ∧ getRandomPollingIntervalInMs
        (some ((40000 : Int) : ℚ)) (some ((120000 : Int) : ℚ)) none (1/2) ≤ 120000 :=
  (claim7_interval_range_and_clamping (1/2) (by norm_num) (by norm_num)).1
    40000 120000 (by decide) (by decide) none

/-- C8: when neither minimum nor maximum is configured and a legacy fixed
interval of at least 15000 is configured, the drawn interval equals the
legacy value for every random value in the unit interval. -/
theorem claim8_legacy_fixed_interval (L : Int) (hL : 15000 ≤ L)
    (rnd : ℚ) (h0 : 0 ≤ rnd) (h1 : rnd < 1) :
    getRandomPollingIntervalInMs none none (some (L : ℚ)) rnd = L := by
  have hbounds :
      effectivePollingBounds none none (some (L : ℚ)) = ((L : ℚ), (L : ℚ)) := by
    unfold effectivePollingBounds resolvedPollingBounds
    simp only
    have hmn : max (L : ℚ) 15000 = (L : ℚ) := by
      apply max_eq_left
      exact_mod_cast hL
    rw [hmn, max_self]
  simp only [getRandomPollingIntervalInMs, hbounds, randomIntInclusive,
    Int.ceil_intCast, Int.floor_intCast]
  rw [sub_self, zero_add, mul_one, Int.floor_eq_zero_iff.mpr ⟨h0, h1⟩, zero_add]

/-- C8 witness: a legacy fixed interval of 60000 and the random value one
third yield exactly 60000. -/
theorem claim8_witness :
    getRandomPollingIntervalInMs none none (some ((60000 : Int) : ℚ)) (1/3) = 60000 :=
  claim8_legacy_fixed_interval 60000 (by decide) (1/3) (by norm_num) (by norm_num)

/-- The hard-coded version refresh period of src/lib/poller.js line 34;
updateAppVersionByInterval reads no configuration, so the period is not
configurable. -/
def APP_VERSION_REFRESH_INTERVAL : Nat := 86400000

/-- Fire instant of the k-th tick of the version refresh timer
(src/lib/poller.js line 158, timer 0 period): tick k occurs at
k * 86400000, so tick 0 is immediate. -/
def versionFireTime (k : Nat) : Nat := k * APP_VERSION_REFRESH_INTERVAL

/-- Modelled from the spec: updateAppVersion lives in the API client
module lib/toogoodtogo-api.js, which is not among the sources at hand;
per spec section 6 it is a promise-returning operation that can fail,
and a failed promise surfaces to the caller as a rejection.  One value
of this type is the outcome of one invocation. -/
abbrev VersionUpdateOutcome := Except Unit Unit

/-- Stream semantics of updateAppVersionByInterval (src/lib/poller.js
lines 157-159): timer ticks are mapped through mergeMap over
updateAppVersion with no catchError, so a rejected promise propagates as
a stream error that terminates the whole observable.  Given the outcome
of the operation at each successive tick, returns how many ticks the
timer delivered and whether the stream terminated with an error: ticks
are delivered in order, and the first failing outcome ends the stream
right after its own tick, dropping every later tick. -/
def versionTimerFires : List VersionUpdateOutcome → Nat × Bool
  | [] => (0, false)
  | .ok _ :: rest =>
    let r := versionTimerFires rest
    (r.1 + 1, r.2)
  | .error _ :: _ => (1, true)

/-- C3: the version refresh timer does fire immediately and then every
86400000 milliseconds, but the resilience half of the claim fails on the
code: when the version update operation fails at the first tick, the
stream terminates with an error after that single tick, so the second
tick with a succeeding outcome is never delivered.  The sibling
authentication timer wraps each call in catchError while this one does
not. -/
theorem claim3_version_timer_crashes_on_failure :
    versionFireTime 0 = 0
    ∧ (∀ k, versionFireTime (k + 1) = versionFireTime k + 86400000)
    ∧ versionTimerFires [Except.error (), Except.ok ()] = (1, true)
    ∧ versionTimerFires [Except.ok (), Except.ok ()] = (2, false) := by
  refine ⟨rfl, ?_, rfl, rfl⟩
  intro k
  simp only [versionFireTime, APP_VERSION_REFRESH_INTERVAL]
  ring

/-- A JS value as it may come out of config.get for the paths read by
src/lib/poller.js: a finite number, the number NaN, a string given by
its characters, null, or undefined. -/
inductive ConfigValue where
  | num (q : ℚ)
  | nan
  | str (s : List Char)
  | null
  | undefined
deriving Repr, DecidableEq

/-- Model of the JS Number conversion applied to a string, restricted to
the shapes the configuration claims exercise: the empty string converts
to 0, a string of decimal digits converts to its decimal value, and any
other string converts to NaN (none).  Signs, whitespace, decimal points
and exponents are outside the scope of these claims. -/
def jsNumberOfChars (cs : List Char) : Option ℚ :=
  if cs.isEmpty then some 0
  else if cs.all Char.isDigit then
    some ((cs.foldl (fun a c => a * 10 + (c.toNat - 48)) 0 : Nat) : ℚ)
  else none

/-- The JS Number conversion on a config value; none models NaN. -/
def jsToNumber : ConfigValue → Option ℚ
  | .num q => some q
  | .nan => none
  | .str s => jsNumberOfChars s
  | .null => some 0
  | .undefined => none

/-- Math.trunc: truncation toward zero. -/
def jsTrunc (q : ℚ) : Int :=
  if 0 ≤ q then ⌊q⌋ else ⌈q⌉

/-- getConfiguredInt (src/lib/poller.js lines 200-204): coerce the config
value with Number, and return its truncation when the result is finite,
the fallback otherwise. -/
def getConfiguredInt (v : ConfigValue) (fallback : Int) : Int :=
  match jsToNumber v with
  | some n => jsTrunc n
  | none => fallback

/-- getConfiguredNumber (src/lib/poller.js lines 206-209): lodash
isFinite accepts only values of number type that are finite, so any
string, null, undefined or NaN yields null, modelled as none. -/
def getConfiguredNumber : ConfigValue → Option ℚ
  | .num q => some q
  | _ => none

/-- The raw config values behind the three backoff paths read at
src/lib/poller.js lines 61-63. -/
structure RawBackoffConfigValues where
  threshold : ConfigValue
  windowMs : ConfigValue
  cooldownMs : ConfigValue

/-- Line 61 of src/lib/poller.js: threshold with fallback 3. -/
def backoff403Threshold (c : RawBackoffConfigValues) : Int :=
  getConfiguredInt c.threshold 3

/-- Line 62 of src/lib/poller.js: window with fallback 300000. -/
def backoff403WindowMs (c : RawBackoffConfigValues) : Int :=
  getConfiguredInt c.windowMs 300000

/-- Line 63 of src/lib/poller.js: cooldown with fallback 600000. -/
def backoff403CooldownMs (c : RawBackoffConfigValues) : Int :=
  getConfiguredInt c.cooldownMs 600000

/-- C10: the backoff configuration keys are read with numeric coercion
and truncation toward zero, so the digit string five yields 5 and the
number 2.9 yields 2 and the number minus 2.9 yields minus 2, with the
fallbacks 3, 300000 and 600000 applying to values that do not coerce to
a finite number, such as undefined, NaN or a non-numeric string; whereas
the polling interval keys, read through getConfiguredNumber, reject
every non-number value including numeric strings and null, treating
them as absent, while accepting every finite number unchanged. -/
theorem claim10_config_coercion (d : Int) :
    getConfiguredInt (ConfigValue.str ['5']) d = 5
    ∧ getConfiguredInt (ConfigValue.num (29/10)) d = 2
    ∧ getConfiguredInt (ConfigValue.num (-(29/10))) d = -2
    ∧ getConfiguredInt (ConfigValue.str ['a', 'b', 'c']) d = d
    ∧ getConfiguredInt ConfigValue.nan d = d
    ∧ getConfiguredInt ConfigValue.undefined d = d
    ∧ backoff403Threshold ⟨ConfigValue.undefined, ConfigValue.num 7, ConfigValue.num 7⟩ = 3
    ∧ backoff403WindowMs ⟨ConfigValue.num 7, ConfigValue.undefined, ConfigValue.num 7⟩ = 300000
    ∧ backoff403CooldownMs ⟨ConfigValue.num 7, ConfigValue.num 7, ConfigValue.undefined⟩ = 600000
    ∧ (∀ s, getConfiguredNumber (ConfigValue.str s) = none)
    ∧ (∀ q, getConfiguredNumber (ConfigValue.num q) = some q)
    ∧ getConfiguredNumber ConfigValue.null = none
    ∧ getConfiguredNumber ConfigValue.nan = none := by
  refine ⟨?_, ?_, ?_, rfl, rfl, rfl, rfl, rfl, rfl, fun _ => rfl, fun _ => rfl, rfl, rfl⟩
  · simp [getConfiguredInt, jsToNumber, jsNumberOfChars, jsTrunc]
  · simp only [getConfiguredInt, jsToNumber, jsTrunc]
    rw [if_pos (by norm_num), Int.floor_eq_iff]
    norm_num
  · simp only [getConfiguredInt, jsToNumber, jsTrunc]
    rw [if_neg (by norm_num), Int.ceil_eq_iff]
    norm_num
